import Mathlib

/-!
A shallow embedding of the batch evaluation-and-export dispatch pipeline of
`src/openscad.cc`: the `cmdline` function, its `checkAndExport` helper, and
the suffix-based output-format selection.  Stateful effects (file opens,
writes, evaluations, dependency output) are recorded as an explicit trace of
events in program order; the environment (`Env`) fixes the outcomes of the
external collaborators for one run (whether the input opens, whether the
parse succeeds, the evaluated geometry, the evaluated CSG term, which output
paths can be opened, whether `write_deps` succeeds).
-/

namespace OpenSCAD

/-- Render mode, from `namespace Render { enum type { CGAL, OPENCSG, THROWNTOGETHER } }`. -/
inductive Render where
  | CGAL
  | OPENCSG
  | THROWNTOGETHER
deriving DecidableEq, Repr

/-- The ten output slots of `cmdline` (`stl_output_file` … `echo_output_file`):
exactly one is selected from the output filename's suffix. -/
inductive OutputFormat where
  | stl
  | off
  | amf
  | dxf
  | svg
  | csg
  | png
  | ast
  | term
  | echo
deriving DecidableEq, Repr

/-- The `FileFormat` enum values passed to `exportFileByName`. -/
inductive FileFormat where
  | OPENSCAD_STL
  | OPENSCAD_OFF
  | OPENSCAD_AMF
  | OPENSCAD_DXF
  | OPENSCAD_SVG
deriving DecidableEq, Repr

/-- A boundary-representation result: `root_geom->getDimension()` is its
dimensionality (2 or 3 in practice). -/
structure Geometry where
  dimension : Nat
deriving DecidableEq, Repr

/-- Observable events of one `cmdline` run, in program order. -/
inductive Event where
  /-- An `std::ofstream`/`Echostream` open attempt on an output path, with its outcome. -/
  | openOutput (path : String) (ok : Bool)
  /-- The `std::ifstream` open of the input script, with its outcome. -/
  | readInput (path : String) (ok : Bool)
  /-- The `parse(...)` call, with its outcome. -/
  | parseResult (ok : Bool)
  /-- The call `geomevaluator.evaluateGeometry(*tree.root(), true)`. -/
  | evalGeometry
  /-- The call `csgRenderer.evaluateCSGTerm(*root_node, ...)`. -/
  | evalCSGTerm
  /-- A successful text write of `content` to an opened output stream. -/
  | writeOutput (path : String) (content : String)
  /-- Delegation to the external boundary-format writer `exportFileByName`. -/
  | exportFile (format : FileFormat) (path : String)
  /-- One of `export_png`, `export_png_with_throwntogether`, `export_png_with_opencsg`. -/
  | exportPng (path : String) (mode : Render)
  /-- The call `write_deps(deps_out, geom_out)`, with its outcome. -/
  | writeDeps (depsPath : String) (targetPath : String) (ok : Bool)
  /-- A `PRINT`/`PRINTB` diagnostic message. -/
  | message (msg : String)
deriving DecidableEq, Repr

/-- Per-run outcomes of the external collaborators `cmdline` consults. -/
structure Env where
  /-- Whether `std::ifstream ifs(filename)` opens. -/
  inputOk : Bool
  /-- Whether `parse(text, parentpath, false)` returns a module. -/
  parseOk : Bool
  /-- The text `root_module->dump("", "")`. -/
  moduleDump : String
  /-- The text `tree.getString(*root_node)`. -/
  treeString : String
  /-- The result of `evaluateCSGTerm`: `none` models a null `root_raw_term`,
  `some d` a term whose `dump()` is `d`. -/
  csgTermDump : Option String
  /-- The result of `evaluateGeometry`: `none` models a null `root_geom`. -/
  geom : Option Geometry
  /-- Whether an `std::ofstream` on the given output path opens. -/
  canOpen : String → Bool
  /-- Whether `write_deps` returns nonzero (success). -/
  writeDepsOk : Bool

/-- Characters strictly after the last occurrence of `sep`, or `none` when
`sep` does not occur. -/
def afterLast (sep : Char) (cs : List Char) : Option (List Char) :=
  cs.foldl (fun acc c => if c = sep then some [] else acc.map (fun l => l ++ [c])) none

/-- ASCII lowercasing of a string, modelling `boost::algorithm::to_lower`. -/
def lowerStr (s : String) : String :=
  String.mk (s.data.map Char.toLower)

/-- Suffix of the output filename, modelling `boosty::extension_str`
(`boost::filesystem` extension of the final path component, dot included,
empty when the component has no dot). -/
def extension_str (path : String) : String :=
  let base :=
    match afterLast '/' path.data with
    | none => path.data
    | some l => l
  match afterLast '.' base with
  | none => ""
  | some ext => String.mk ('.' :: ext)

/-- The suffix comparison chain of `cmdline` (lines 262–271): which output
slot a lowercased suffix selects, `none` for the unknown-suffix arm. -/
def formatFromSuffix (suffix : String) : Option OutputFormat :=
  if suffix = ".stl" then some OutputFormat.stl
  else if suffix = ".off" then some OutputFormat.off
  else if suffix = ".amf" then some OutputFormat.amf
  else if suffix = ".dxf" then some OutputFormat.dxf
  else if suffix = ".svg" then some OutputFormat.svg
  else if suffix = ".csg" then some OutputFormat.csg
  else if suffix = ".png" then some OutputFormat.png
  else if suffix = ".ast" then some OutputFormat.ast
  else if suffix = ".term" then some OutputFormat.term
  else if suffix = ".echo" then some OutputFormat.echo
  else none

/-- Format selection from the output filename: extension, lowercased, then the
comparison chain (`boost::algorithm::to_lower(suffix)` then the `if` chain). -/
def selectFormat (output_file : String) : Option OutputFormat :=
  formatFromSuffix (lowerStr (extension_str output_file))

/-- The helper `checkAndExport(root_geom, nd, format, filename)`: dimension
check, then delegation to `exportFileByName`; returns the C++ `bool` together
with the events it emits. -/
def checkAndExport (g : Geometry) (nd : Nat) (format : FileFormat) (filename : String) :
    Bool × List Event :=
  if g.dimension ≠ nd then
    (false, [Event.message ("Current top level object is not a " ++ toString nd ++ "D object.")])
  else
    (true, [Event.exportFile format filename])

/-- Whether the deps block (lines 388–393) finds a `geom_out` for this output
slot: the chain tries `stl`, `off`, `amf`, `dxf`, `svg`, `png` in turn. -/
def hasGeomOut (fmt : OutputFormat) : Bool :=
  match fmt with
  | OutputFormat.stl => true
  | OutputFormat.off => true
  | OutputFormat.amf => true
  | OutputFormat.dxf => true
  | OutputFormat.svg => true
  | OutputFormat.png => true
  | _ => false

/-- The `deps_output_file` block (lines 385–404).  `Except.error evts` models
an early `return 1` after emitting `evts`; `Except.ok evts` lets the run
continue past the block. -/
def depsStep (deps_output_file : Option String) (fmt : OutputFormat) (output_file : String)
    (writeDepsOk : Bool) : Except (List Event) (List Event) :=
  match deps_output_file with
  | none => Except.ok []
  | some d =>
    if hasGeomOut fmt then
      if writeDepsOk then Except.ok [Event.writeDeps d output_file true]
      else Except.error [Event.writeDeps d output_file false, Event.message "error writing deps"]
    else
      Except.error [Event.message ("Output file:" ++ output_file),
        Event.message "Sorry, don't know how to write deps for that file type. Exiting"]

/-- The export chain (lines 406–446) when `evaluateGeometry` was skipped
(echo or png output with a non-CGAL renderer): `root_geom` is null and only
the png and echo arms can be live. -/
def exportStepSkipped (env : Env) (output_file : String) (fmt : OutputFormat)
    (renderer : Render) : Nat × List Event :=
  match fmt with
  | OutputFormat.png =>
    if env.canOpen output_file then
      (0, [Event.openOutput output_file true, Event.exportPng output_file renderer])
    else
      (0, [Event.openOutput output_file false,
        Event.message ("Can't open file \"" ++ output_file ++ "\" for export")])
  | _ => (0, [])

/-- The export chain (lines 406–446) when `evaluateGeometry` produced `g`.
Exactly one output slot is non-null, so the sequential `if` blocks reduce to
a match on the selected slot; a failed `checkAndExport` is `return 1`. -/
def exportStepEvaluated (env : Env) (output_file : String) (fmt : OutputFormat)
    (renderer : Render) (g : Geometry) : Nat × List Event :=
  match fmt with
  | OutputFormat.stl =>
    let r := checkAndExport g 3 FileFormat.OPENSCAD_STL output_file
    (if r.1 then 0 else 1, r.2)
  | OutputFormat.off =>
    let r := checkAndExport g 3 FileFormat.OPENSCAD_OFF output_file
    (if r.1 then 0 else 1, r.2)
  | OutputFormat.amf =>
    let r := checkAndExport g 3 FileFormat.OPENSCAD_AMF output_file
    (if r.1 then 0 else 1, r.2)
  | OutputFormat.dxf =>
    let r := checkAndExport g 2 FileFormat.OPENSCAD_DXF output_file
    (if r.1 then 0 else 1, r.2)
  | OutputFormat.svg =>
    let r := checkAndExport g 2 FileFormat.OPENSCAD_SVG output_file
    (if r.1 then 0 else 1, r.2)
  | OutputFormat.png =>
    if env.canOpen output_file then
      (0, [Event.openOutput output_file true, Event.exportPng output_file renderer])
    else
      (0, [Event.openOutput output_file false,
        Event.message ("Can't open file \"" ++ output_file ++ "\" for export")])
  | _ => (0, [])

/-- The full-geometry `else` branch (lines 370–451): conditional
`evaluateGeometry` (skipped for echo/png output unless the renderer is CGAL),
the empty-geometry failure, the deps block, then the export chain. -/
def geomBranch (env : Env) (deps_output_file : Option String) (output_file : String)
    (fmt : OutputFormat) (renderer : Render) : Nat × List Event :=
  if (fmt = OutputFormat.echo ∨ fmt = OutputFormat.png) ∧ renderer ≠ Render.CGAL then
    match depsStep deps_output_file fmt output_file env.writeDepsOk with
    | Except.error evts => (1, evts)
    | Except.ok depsEvts =>
      let r := exportStepSkipped env output_file fmt renderer
      (r.1, depsEvts ++ r.2)
  else
    match env.geom with
    | none => (1, [Event.evalGeometry, Event.message "No top-level object found."])
    | some g =>
      match depsStep deps_output_file fmt output_file env.writeDepsOk with
      | Except.error evts => (1, Event.evalGeometry :: evts)
      | Except.ok depsEvts =>
        let r := exportStepEvaluated env output_file fmt renderer g
        (r.1, Event.evalGeometry :: (depsEvts ++ r.2))

/-- The per-format dispatch after load and parse succeed: the `csg`, `ast`
and `term` branches (lines 325–369), and otherwise the full-geometry branch. -/
def dispatch (env : Env) (deps_output_file : Option String) (output_file : String)
    (fmt : OutputFormat) (renderer : Render) : Nat × List Event :=
  match fmt with
  | OutputFormat.csg =>
    if env.canOpen output_file then
      (0, [Event.openOutput output_file true,
        Event.writeOutput output_file (env.treeString ++ "\n")])
    else
      (0, [Event.openOutput output_file false,
        Event.message ("Can't open file \"" ++ output_file ++ "\" for export")])
  | OutputFormat.ast =>
    if env.canOpen output_file then
      (0, [Event.openOutput output_file true,
        Event.writeOutput output_file (env.moduleDump ++ "\n")])
    else
      (0, [Event.openOutput output_file false,
        Event.message ("Can't open file \"" ++ output_file ++ "\" for export")])
  | OutputFormat.term =>
    if env.canOpen output_file then
      (0, [Event.evalCSGTerm, Event.openOutput output_file true,
        Event.writeOutput output_file
          (match env.csgTermDump with
           | none => "No top-level CSG object\n"
           | some d => d ++ "\n")])
    else
      (0, [Event.evalCSGTerm, Event.openOutput output_file false,
        Event.message ("Can't open file \"" ++ output_file ++ "\" for export")])
  | f => geomBranch env deps_output_file output_file f renderer

/-- The `cmdline` entry point: suffix-based format selection (unknown suffix
is `return 1` before anything is opened), the `Echostream` open for echo
output, input open, parse, then the per-format dispatch.  Returns the process
exit status and the event trace in program order. -/
def cmdline (env : Env) (deps_output_file : Option String) (filename : String)
    (output_file : String) (renderer : Render) : Nat × List Event :=
  match selectFormat output_file with
  | none => (1, [Event.message ("Unknown suffix for output file " ++ output_file)])
  | some fmt =>
    let echoEvts : List Event :=
      if fmt = OutputFormat.echo then [Event.openOutput output_file (env.canOpen output_file)]
      else []
    if env.inputOk = false then
      (1, echoEvts ++ [Event.readInput filename false,
        Event.message ("Can't open input file '" ++ filename ++ "'!")])
    else if env.parseOk = false then
      (1, echoEvts ++ [Event.readInput filename true, Event.parseResult false,
        Event.message ("Can't parse file '" ++ filename ++ "'!")])
    else
      let r := dispatch env deps_output_file output_file fmt renderer
      (r.1, echoEvts ++ [Event.readInput filename true, Event.parseResult true] ++ r.2)

/-- Required dimensionality and `FileFormat` of each boundary-representation
exporter, read off the five `checkAndExport` call sites (lines 406–429):
`.stl`/`.off`/`.amf` require 3, `.dxf`/`.svg` require 2. -/
def exporterDim (fmt : OutputFormat) : Option (Nat × FileFormat) :=
  match fmt with
  | OutputFormat.stl => some (3, FileFormat.OPENSCAD_STL)
  | OutputFormat.off => some (3, FileFormat.OPENSCAD_OFF)
  | OutputFormat.amf => some (3, FileFormat.OPENSCAD_AMF)
  | OutputFormat.dxf => some (2, FileFormat.OPENSCAD_DXF)
  | OutputFormat.svg => some (2, FileFormat.OPENSCAD_SVG)
  | _ => none

/-- A benign run environment: readable input, successful parse, a 3-D
evaluated geometry, every output path writable. -/
def env0 : Env :=
  { inputOk := true, parseOk := true, moduleDump := "M", treeString := "T",
    csgTermDump := none, geom := some ⟨3⟩, canOpen := fun _ => true, writeDepsOk := true }

/-- As `env0` but no output path can be opened for writing. -/
def envNoOpen : Env :=
  { env0 with canOpen := fun _ => false }

/-- As `env0` but the evaluated geometry is 2-dimensional. -/
def env2d : Env :=
  { env0 with geom := some ⟨2⟩ }

/-- As `env0` but full evaluation produces no top-level object. -/
def envNoGeom : Env :=
  { env0 with geom := none }


/-- C4: an unrecognized output suffix fails with the unknown-suffix error, exit
status 1, and no output file is opened or written. -/
theorem c4_unknown_suffix (env : Env) (deps : Option String) (filename out : String)
    (renderer : Render) (h : selectFormat out = none) :
    (cmdline env deps filename out renderer).1 = 1 ∧
    Event.message ("Unknown suffix for output file " ++ out)
      ∈ (cmdline env deps filename out renderer).2 ∧
    (∀ p b, Event.openOutput p b ∉ (cmdline env deps filename out renderer).2) ∧
    (∀ p c, Event.writeOutput p c ∉ (cmdline env deps filename out renderer).2) ∧
    (∀ f p, Event.exportFile f p ∉ (cmdline env deps filename out renderer).2) ∧
    (∀ p m, Event.exportPng p m ∉ (cmdline env deps filename out renderer).2) ∧
    (∀ a b c, Event.writeDeps a b c ∉ (cmdline env deps filename out renderer).2) := by
  simp [cmdline, h]

theorem c4_witness :
    selectFormat "out.pdf" = none ∧
    (cmdline env0 none "in.scad" "out.pdf" Render.OPENCSG).1 = 1 :=
  ⟨by rfl, (c4_unknown_suffix env0 none "in.scad" "out.pdf" Render.OPENCSG (by rfl)).1⟩

/-- C9: a `.term` run whose CSG-term evaluation produces no top-level object
does not fail: it writes the line to the output file and exits 0. -/
theorem c9_term_no_top_level (env : Env) (deps : Option String) (filename out : String)
    (renderer : Render) (hfmt : selectFormat out = some OutputFormat.term)
    (hin : env.inputOk = true) (hp : env.parseOk = true)
    (hterm : env.csgTermDump = none) (hopen : env.canOpen out = true) :
    (cmdline env deps filename out renderer).1 = 0 ∧
    Event.writeOutput out "No top-level CSG object\n"
      ∈ (cmdline env deps filename out renderer).2 := by
  simp [cmdline, dispatch, hfmt, hin, hp, hterm, hopen]

theorem c9_witness :
    (cmdline env0 none "in.scad" "out.term" Render.OPENCSG).1 = 0 ∧
    Event.writeOutput "out.term" "No top-level CSG object\n"
      ∈ (cmdline env0 none "in.scad" "out.term" Render.OPENCSG).2 :=
  c9_term_no_top_level env0 none "in.scad" "out.term" Render.OPENCSG (by rfl) rfl rfl rfl rfl

/-- C10: for echo output the destination file is opened (created/truncated)
before the input script is opened or parsed, so the open event is the first
event of the trace, and it is present even when the run later fails on an
unreadable input or a parse error with exit status 1. -/
theorem c10_echo_opened_first (env : Env) (deps : Option String) (filename out : String)
    (renderer : Render) (hfmt : selectFormat out = some OutputFormat.echo) :
    (∃ rest, (cmdline env deps filename out renderer).2 =
        Event.openOutput out (env.canOpen out) :: rest) ∧
    (env.inputOk = false →
      (cmdline env deps filename out renderer).1 = 1 ∧
      Event.readInput filename false ∈ (cmdline env deps filename out renderer).2) ∧
    (env.inputOk = true → env.parseOk = false →
      (cmdline env deps filename out renderer).1 = 1 ∧
      Event.parseResult false ∈ (cmdline env deps filename out renderer).2) := by
  rcases hin : env.inputOk with _ | _
  · simp [cmdline, hfmt, hin]
  · rcases hp : env.parseOk with _ | _
    · simp [cmdline, hfmt, hin, hp]
    · simp [cmdline, hfmt, hin, hp]

theorem c10_witness :
    (∃ rest, (cmdline { env0 with inputOk := false } none "missing.scad" "out.echo"
        Render.OPENCSG).2 = Event.openOutput "out.echo" true :: rest) ∧
    (cmdline { env0 with inputOk := false } none "missing.scad" "out.echo"
        Render.OPENCSG).1 = 1 := by
  refine ⟨(c10_echo_opened_first _ none "missing.scad" "out.echo" Render.OPENCSG (by rfl)).1, ?_⟩
  exact ((c10_echo_opened_first _ none "missing.scad" "out.echo" Render.OPENCSG (by rfl)).2.1 rfl).1

/-- C7 counterexample: a `.csg` run performs no CSG-term evaluation at all —
the branch writes the node-tree dump `tree.getString` directly. -/
theorem c7_counterexample :
    (cmdline env0 none "in.scad" "out.csg" Render.OPENCSG).1 = 0 ∧
    Event.evalCSGTerm ∉ (cmdline env0 none "in.scad" "out.csg" Render.OPENCSG).2 ∧
    Event.writeOutput "out.csg" "T\n"
      ∈ (cmdline env0 none "in.scad" "out.csg" Render.OPENCSG).2 := by
  decide

/-- C7 amended: a `.csg` run performs neither CSG-term evaluation nor
boundary-representation evaluation; the output written is the node-tree dump
`tree.getString(*root_node)` followed by a newline. -/
theorem c7_amended (env : Env) (deps : Option String) (filename out : String)
    (renderer : Render) (hfmt : selectFormat out = some OutputFormat.csg)
    (hin : env.inputOk = true) (hp : env.parseOk = true) :
    (cmdline env deps filename out renderer).1 = 0 ∧
    Event.evalCSGTerm ∉ (cmdline env deps filename out renderer).2 ∧
    Event.evalGeometry ∉ (cmdline env deps filename out renderer).2 ∧
    (env.canOpen out = true →
      Event.writeOutput out (env.treeString ++ "\n")
        ∈ (cmdline env deps filename out renderer).2) := by
  rcases ho : env.canOpen out with _ | _ <;>
    simp [cmdline, dispatch, hfmt, hin, hp, ho]

theorem c7_witness :
    (cmdline env0 none "in.scad" "c.csg" Render.CGAL).1 = 0 ∧
    Event.evalCSGTerm ∉ (cmdline env0 none "in.scad" "c.csg" Render.CGAL).2 ∧
    Event.evalGeometry ∉ (cmdline env0 none "in.scad" "c.csg" Render.CGAL).2 ∧
    (env0.canOpen "c.csg" = true →
      Event.writeOutput "c.csg" (env0.treeString ++ "\n")
        ∈ (cmdline env0 none "in.scad" "c.csg" Render.CGAL).2) :=
  c7_amended env0 none "in.scad" "c.csg" Render.CGAL (by rfl) rfl rfl

/-- C5 counterexample: with an unwritable `.csg` destination the run logs the
open failure, writes nothing, and exits with status 0 — not 1. -/
theorem c5_counterexample :
    cmdline envNoOpen none "in.scad" "out.csg" Render.OPENCSG =
      (0, [Event.readInput "in.scad" true, Event.parseResult true,
           Event.openOutput "out.csg" false,
           Event.message "Can't open file \"out.csg\" for export"]) := by
  decide

/-- C5 amended: when the destination cannot be opened for writing, nothing is
written to it and an error is logged, but the run does not abort: it exits
with status 0 (shown for the inline-written paths `.csg`/`.ast`/`.term` and
for `.png` in a preview mode). -/
theorem c5_amended (env : Env) (filename out : String)
    (renderer : Render) (fmt : OutputFormat) (hfmt : selectFormat out = some fmt)
    (hf : fmt = OutputFormat.csg ∨ fmt = OutputFormat.ast ∨ fmt = OutputFormat.term
          ∨ (fmt = OutputFormat.png ∧ renderer ≠ Render.CGAL))
    (hin : env.inputOk = true) (hp : env.parseOk = true)
    (hopen : env.canOpen out = false) :
    (cmdline env none filename out renderer).1 = 0 ∧
    Event.message ("Can't open file \"" ++ out ++ "\" for export")
      ∈ (cmdline env none filename out renderer).2 ∧
    (∀ p c, Event.writeOutput p c ∉ (cmdline env none filename out renderer).2) ∧
    (∀ f p, Event.exportFile f p ∉ (cmdline env none filename out renderer).2) ∧
    (∀ p m, Event.exportPng p m ∉ (cmdline env none filename out renderer).2) := by
  rcases hf with hf | hf | hf | ⟨hf, hr⟩ <;>
    subst hf <;>
    simp [cmdline, dispatch, geomBranch, depsStep, exportStepSkipped,
      hfmt, hin, hp, hopen, *]

theorem c5_witness :
    (cmdline envNoOpen none "in.scad" "out.ast" Render.OPENCSG).1 = 0 ∧
    Event.message ("Can't open file \"" ++ "out.ast" ++ "\" for export")
      ∈ (cmdline envNoOpen none "in.scad" "out.ast" Render.OPENCSG).2 :=
  ⟨(c5_amended envNoOpen "in.scad" "out.ast" Render.OPENCSG OutputFormat.ast (by rfl)
      (Or.inr (Or.inl rfl)) rfl rfl rfl).1,
   (c5_amended envNoOpen "in.scad" "out.ast" Render.OPENCSG OutputFormat.ast (by rfl)
      (Or.inr (Or.inl rfl)) rfl rfl rfl).2.1⟩

/-- C3: on the full-geometry path (solid/drawing export, or raster in
full-render mode), an empty evaluation result aborts with exit status 1 and
no output file is opened, written, or exported. -/
theorem c3_empty_geometry (env : Env) (deps : Option String) (filename out : String)
    (renderer : Render) (fmt : OutputFormat)
    (hfmt : selectFormat out = some fmt)
    (hfull : fmt = OutputFormat.stl ∨ fmt = OutputFormat.off ∨ fmt = OutputFormat.amf
             ∨ fmt = OutputFormat.dxf ∨ fmt = OutputFormat.svg
             ∨ (fmt = OutputFormat.png ∧ renderer = Render.CGAL))
    (hin : env.inputOk = true) (hp : env.parseOk = true)
    (hg : env.geom = none) :
    (cmdline env deps filename out renderer).1 = 1 ∧
    Event.message "No top-level object found." ∈ (cmdline env deps filename out renderer).2 ∧
    (∀ p b, Event.openOutput p b ∉ (cmdline env deps filename out renderer).2) ∧
    (∀ p c, Event.writeOutput p c ∉ (cmdline env deps filename out renderer).2) ∧
    (∀ f p, Event.exportFile f p ∉ (cmdline env deps filename out renderer).2) ∧
    (∀ p m, Event.exportPng p m ∉ (cmdline env deps filename out renderer).2) ∧
    (∀ a b c, Event.writeDeps a b c ∉ (cmdline env deps filename out renderer).2) := by
  rcases hfull with hf | hf | hf | hf | hf | ⟨hf, hr⟩ <;>
    subst hf <;>
    simp [cmdline, dispatch, geomBranch, hfmt, hin, hp, hg, *]

theorem c3_witness :
    (cmdline envNoGeom none "in.scad" "out.off" Render.OPENCSG).1 = 1 ∧
    Event.message "No top-level object found."
      ∈ (cmdline envNoGeom none "in.scad" "out.off" Render.OPENCSG).2 :=
  ⟨(c3_empty_geometry envNoGeom none "in.scad" "out.off" Render.OPENCSG OutputFormat.off
      (by rfl) (Or.inr (Or.inl rfl)) rfl rfl rfl).1,
   (c3_empty_geometry envNoGeom none "in.scad" "out.off" Render.OPENCSG OutputFormat.off
      (by rfl) (Or.inr (Or.inl rfl)) rfl rfl rfl).2.1⟩

/-- C2 counterexample: exporting a 2-D geometry as `.stl` fails with exit
status 1, but the emitted message is exactly the fixed text naming only the
expected dimension — the digit 2 (the actual dimension) appears nowhere. -/
theorem c2_counterexample :
    cmdline env2d none "in.scad" "out.stl" Render.OPENCSG =
      (1, [Event.readInput "in.scad" true, Event.parseResult true, Event.evalGeometry,
           Event.message "Current top level object is not a 3D object."]) ∧
    '2' ∉ "Current top level object is not a 3D object.".data := by
  decide

/-- Events a successful pass through the deps block can emit: none, or one
successful `write_deps` on the requested paths. -/
theorem depsStep_ok_events (deps : Option String) (fmt : OutputFormat) (out : String)
    (ok : Bool) (evts : List Event) (h : depsStep deps fmt out ok = Except.ok evts) :
    evts = [] ∨ ∃ d, deps = some d ∧ evts = [Event.writeDeps d out true] := by
  rcases deps with _ | d
  · left
    simpa [depsStep] using h.symm
  · by_cases hg : hasGeomOut fmt <;> rcases ok with _ | _ <;>
      simp [depsStep, hg] at h
    right
    exact ⟨d, rfl, h.symm⟩

/-- C2 amended: a dimension mismatch at a boundary exporter fails with exit
status 1 and a message naming the expected dimension (only), without
delegating to the writer; a matching dimension exports and succeeds. -/
theorem c2_amended (env : Env) (deps : Option String) (filename out : String)
    (renderer : Render) (fmt : OutputFormat) (nd : Nat) (ff : FileFormat) (g : Geometry)
    (hfmt : selectFormat out = some fmt)
    (hreq : exporterDim fmt = some (nd, ff))
    (hin : env.inputOk = true) (hp : env.parseOk = true) (hg : env.geom = some g)
    (hdeps : ∃ dEvts, depsStep deps fmt out env.writeDepsOk = Except.ok dEvts) :
    (g.dimension ≠ nd →
      (cmdline env deps filename out renderer).1 = 1 ∧
      Event.message ("Current top level object is not a " ++ toString nd ++ "D object.")
        ∈ (cmdline env deps filename out renderer).2 ∧
      (∀ f p, Event.exportFile f p ∉ (cmdline env deps filename out renderer).2) ∧
      (∀ p c, Event.writeOutput p c ∉ (cmdline env deps filename out renderer).2)) ∧
    (g.dimension = nd →
      (cmdline env deps filename out renderer).1 = 0 ∧
      Event.exportFile ff out ∈ (cmdline env deps filename out renderer).2) := by
  obtain ⟨dEvts, hds⟩ := hdeps
  have hde := depsStep_ok_events deps fmt out env.writeDepsOk dEvts hds
  rcases fmt <;>
    simp only [exporterDim, Option.some.injEq, Prod.mk.injEq, reduceCtorEq] at hreq <;>
    obtain ⟨rfl, rfl⟩ := hreq <;>
    rcases hde with rfl | ⟨d, hdd, rfl⟩ <;>
    refine ⟨fun hdim => ?_, fun hdim => ?_⟩ <;>
    simp [cmdline, dispatch, geomBranch, exportStepEvaluated, checkAndExport,
      hfmt, hin, hp, hg, hds, hdim]

theorem c2_witness :
    (env2d.geom = some ⟨2⟩) ∧
    ((2 : Nat) ≠ 3) ∧
    (cmdline env2d none "in.scad" "out.stl" Render.OPENCSG).1 = 1 ∧
    Event.message ("Current top level object is not a " ++ toString 3 ++ "D object.")
      ∈ (cmdline env2d none "in.scad" "out.stl" Render.OPENCSG).2 := by
  refine ⟨rfl, by decide, ?_⟩
  have h := (c2_amended env2d none "in.scad" "out.stl" Render.OPENCSG OutputFormat.stl
    3 FileFormat.OPENSCAD_STL ⟨2⟩ (by rfl) rfl rfl rfl rfl ⟨[], rfl⟩).1 (by decide)
  exact ⟨h.1, h.2.1⟩

/-- C6 counterexample: requesting dependency output together with a `.csg`
dump does not fail — the request is silently ignored, no dependency file is
written, and the run exits 0. -/
theorem c6_counterexample :
    cmdline env0 (some "out.d") "in.scad" "out.csg" Render.OPENCSG =
      (0, [Event.readInput "in.scad" true, Event.parseResult true,
           Event.openOutput "out.csg" true, Event.writeOutput "out.csg" "T\n"]) := by
  decide

/-- C6 amended: a dependency file is written only for solid/drawing/raster
formats; with `.echo` the request fails with exit status 1; with
`.csg`/`.ast`/`.term` it is silently ignored and the run exits 0. -/
theorem c6_amended (env : Env) (d filename out : String) (renderer : Render)
    (fmt : OutputFormat) (hfmt : selectFormat out = some fmt)
    (hin : env.inputOk = true) (hp : env.parseOk = true) :
    (fmt = OutputFormat.csg ∨ fmt = OutputFormat.ast ∨ fmt = OutputFormat.term →
      (cmdline env (some d) filename out renderer).1 = 0 ∧
      (∀ a b c, Event.writeDeps a b c ∉ (cmdline env (some d) filename out renderer).2)) ∧
    (fmt = OutputFormat.echo →
      (cmdline env (some d) filename out renderer).1 = 1 ∧
      (∀ a b c, Event.writeDeps a b c ∉ (cmdline env (some d) filename out renderer).2) ∧
      (renderer ≠ Render.CGAL ∨ env.geom.isSome = true →
        Event.message "Sorry, don't know how to write deps for that file type. Exiting"
          ∈ (cmdline env (some d) filename out renderer).2)) ∧
    (hasGeomOut fmt = true → env.writeDepsOk = true →
      ((fmt = OutputFormat.png ∧ renderer ≠ Render.CGAL) ∨ env.geom.isSome = true) →
      Event.writeDeps d out true ∈ (cmdline env (some d) filename out renderer).2) := by
  refine ⟨?_, ?_, ?_⟩
  · rintro (rfl | rfl | rfl) <;>
      rcases ho : env.canOpen out with _ | _ <;>
      simp [cmdline, dispatch, hfmt, hin, hp, ho]
  · rintro rfl
    by_cases hr : renderer = Render.CGAL
    · rcases hge : env.geom with _ | g
      · refine ⟨?_, ?_, fun h => ?_⟩
        · simp [cmdline, dispatch, geomBranch, hfmt, hin, hp, hr, hge]
        · simp [cmdline, dispatch, geomBranch, hfmt, hin, hp, hr, hge]
        · rcases h with h | h
          · exact absurd hr h
          · simp at h
      · simp [cmdline, dispatch, geomBranch, depsStep, hasGeomOut,
          hfmt, hin, hp, hr, hge]
    · simp [cmdline, dispatch, geomBranch, depsStep, exportStepSkipped, hasGeomOut,
        hfmt, hin, hp, hr]
  · intro hgo hwd hreach
    rcases fmt <;> simp [hasGeomOut] at hgo <;>
      [skip; skip; skip; skip; skip; skip] <;>
      first
      | -- the five boundary formats: evaluation must have produced a geometry
        (rcases hreach with ⟨hpng, _⟩ | hsome
         · exact absurd hpng (by simp)
         · obtain ⟨g, hg⟩ := Option.isSome_iff_exists.mp hsome
           simp [cmdline, dispatch, geomBranch, depsStep, hasGeomOut,
             hfmt, hin, hp, hg, hwd])
      | skip
    -- png
    by_cases hr : renderer = Render.CGAL
    · rcases hreach with ⟨_, hr2⟩ | hsome
      · exact absurd hr hr2
      · obtain ⟨g, hg⟩ := Option.isSome_iff_exists.mp hsome
        simp [cmdline, dispatch, geomBranch, depsStep, hasGeomOut,
          hfmt, hin, hp, hg, hwd, hr]
    · simp [cmdline, dispatch, geomBranch, depsStep, hasGeomOut,
        hfmt, hin, hp, hwd, hr]


/-- C6 witness: with a `.term` output the dependency request is ignored and
the run exits 0; with a `.stl` output the dependency file is written. -/
theorem c6_witness :
    (cmdline env0 (some "d.deps") "in.scad" "out.term" Render.OPENCSG).1 = 0 ∧
    Event.writeDeps "d.deps" "out.stl" true
      ∈ (cmdline env0 (some "d.deps") "in.scad" "out.stl" Render.OPENCSG).2 :=
  ⟨((c6_amended env0 "d.deps" "in.scad" "out.term" Render.OPENCSG OutputFormat.term
      (by rfl) rfl rfl).1 (Or.inr (Or.inr rfl))).1,
   (c6_amended env0 "d.deps" "in.scad" "out.stl" Render.OPENCSG OutputFormat.stl
      (by rfl) rfl rfl).2.2 rfl rfl (Or.inr rfl)⟩

/-- C8: output-format selection is a pure function of the destination
filename's lowercased suffix (so case-insensitive and deterministic),
mutually exclusive, matching the ten-suffix table, with every other suffix
taking the unknown-suffix error arm of `cmdline`. -/
theorem c8_format_selection :
    (∀ s t : String, lowerStr (extension_str s) = lowerStr (extension_str t) →
        selectFormat s = selectFormat t) ∧
    (∀ s : String, (∃ fmt, selectFormat s = some fmt) ∨ selectFormat s = none) ∧
    (∀ (s : String) (fmt fmt' : OutputFormat),
        selectFormat s = some fmt → selectFormat s = some fmt' → fmt = fmt') ∧
    (∀ (env : Env) (deps : Option String) (filename out : String) (renderer : Render),
        selectFormat out = none →
        cmdline env deps filename out renderer =
          (1, [Event.message ("Unknown suffix for output file " ++ out)])) ∧
    formatFromSuffix ".stl" = some OutputFormat.stl ∧
    formatFromSuffix ".off" = some OutputFormat.off ∧
    formatFromSuffix ".amf" = some OutputFormat.amf ∧
    formatFromSuffix ".dxf" = some OutputFormat.dxf ∧
    formatFromSuffix ".svg" = some OutputFormat.svg ∧
    formatFromSuffix ".csg" = some OutputFormat.csg ∧
    formatFromSuffix ".png" = some OutputFormat.png ∧
    formatFromSuffix ".ast" = some OutputFormat.ast ∧
    formatFromSuffix ".term" = some OutputFormat.term ∧
    formatFromSuffix ".echo" = some OutputFormat.echo ∧
    (∀ s : String,
      s ∉ ([".stl", ".off", ".amf", ".dxf", ".svg", ".csg", ".png", ".ast",
            ".term", ".echo"] : List String) →
      formatFromSuffix s = none) := by
  refine ⟨?_, ?_, ?_, ?_, rfl, rfl, rfl, rfl, rfl, rfl, rfl, rfl, rfl, rfl, ?_⟩
  · intro s t h
    unfold selectFormat
    rw [h]
  · intro s
    rcases selectFormat s with _ | fmt
    · exact Or.inr rfl
    · exact Or.inl ⟨fmt, rfl⟩
  · intro s fmt fmt' h1 h2
    rw [h1] at h2
    exact Option.some.inj h2
  · intro env deps filename out renderer h
    simp [cmdline, h]
  · intro s hs
    simp only [List.mem_cons, List.not_mem_nil, or_false] at hs
    push_neg at hs
    obtain ⟨h1, h2, h3, h4, h5, h6, h7, h8, h9, h10⟩ := hs
    simp [formatFromSuffix, h1, h2, h3, h4, h5, h6, h7, h8, h9, h10]

theorem c8_witness :
    selectFormat "a/b.STL" = selectFormat "c.stl" ∧
    cmdline env0 none "in.scad" "out.xyz" Render.OPENCSG =
      (1, [Event.message ("Unknown suffix for output file " ++ "out.xyz")]) :=
  ⟨c8_format_selection.1 "a/b.STL" "c.stl" (by rfl),
   c8_format_selection.2.2.2.1 env0 none "in.scad" "out.xyz" Render.OPENCSG (by rfl)⟩

/-- C1 counterexample: with echo output and full-render mode (`--render`),
full geometry evaluation is invoked even though the format is `.echo`. -/
theorem c1_counterexample :
    Event.evalGeometry ∈ (cmdline env0 none "in.scad" "out.echo" Render.CGAL).2 := by
  decide

/-- Events of the skipped-evaluation export chain never include a geometry
evaluation. -/
theorem exportStepSkipped_no_eval (env : Env) (out : String) (fmt : OutputFormat)
    (renderer : Render) :
    Event.evalGeometry ∉ (exportStepSkipped env out fmt renderer).2 := by
  rcases fmt <;> simp [exportStepSkipped] <;>
    rcases env.canOpen out <;> simp

/-- Events of the evaluated export chain never include a geometry
evaluation (the evaluation itself happens before the chain). -/
theorem exportStepEvaluated_no_eval (env : Env) (out : String) (fmt : OutputFormat)
    (renderer : Render) (g : Geometry) :
    Event.evalGeometry ∉ (exportStepEvaluated env out fmt renderer g).2 := by
  rcases fmt <;>
    simp [exportStepEvaluated, checkAndExport] <;>
    first
      | (rcases env.canOpen out <;> simp)
      | (by_cases hdim : g.dimension = 3 <;> simp [hdim])
      | (by_cases hdim : g.dimension = 2 <;> simp [hdim])
      | skip

/-- Events of the deps block never include a geometry evaluation. -/
theorem depsStep_no_eval (deps : Option String) (fmt : OutputFormat) (out : String)
    (ok : Bool) (evts : List Event)
    (h : depsStep deps fmt out ok = Except.error evts ∨
         depsStep deps fmt out ok = Except.ok evts) :
    Event.evalGeometry ∉ evts := by
  rcases deps with _ | d
  · rcases h with h | h
    · simp [depsStep] at h
    · obtain rfl := (Except.ok.inj h).symm
      simp
  · by_cases hg : hasGeomOut fmt <;> rcases ok with _ | _ <;>
      rcases h with h | h <;>
      simp only [depsStep, hg, if_true, if_false, ite_true, ite_false, Bool.false_eq_true] at h <;>
      first
        | (obtain rfl := (Except.ok.inj h).symm; simp)
        | (obtain rfl := (Except.error.inj h).symm; simp)
        | simp at h

/-- The full-geometry branch emits at most one geometry evaluation. -/
theorem geomBranch_eval_count (env : Env) (deps : Option String) (out : String)
    (fmt : OutputFormat) (renderer : Render) :
    ((geomBranch env deps out fmt renderer).2.count Event.evalGeometry ≤ 1) := by
  unfold geomBranch
  split
  · rcases hds : depsStep deps fmt out env.writeDepsOk with evts | evts
    · simp [List.count_eq_zero_of_not_mem
        (depsStep_no_eval deps fmt out env.writeDepsOk evts (Or.inl hds))]
    · simp [List.count_append,
        List.count_eq_zero_of_not_mem
          (depsStep_no_eval deps fmt out env.writeDepsOk evts (Or.inr hds)),
        List.count_eq_zero_of_not_mem (exportStepSkipped_no_eval env out fmt renderer)]
  · rcases hge : env.geom with _ | g
    · simp
    · rcases hds : depsStep deps fmt out env.writeDepsOk with evts | evts
      · simp [List.count_cons,
          List.count_eq_zero_of_not_mem
            (depsStep_no_eval deps fmt out env.writeDepsOk evts (Or.inl hds))]
      · simp [List.count_cons, List.count_append,
          List.count_eq_zero_of_not_mem
            (depsStep_no_eval deps fmt out env.writeDepsOk evts (Or.inr hds)),
          List.count_eq_zero_of_not_mem (exportStepEvaluated_no_eval env out fmt renderer g)]

/-- The full-geometry branch emits no geometry evaluation at all when the
renderer lets echo/png output skip it. -/
theorem geomBranch_skip_count (env : Env) (deps : Option String) (out : String)
    (fmt : OutputFormat) (renderer : Render)
    (h : (fmt = OutputFormat.echo ∨ fmt = OutputFormat.png) ∧ renderer ≠ Render.CGAL) :
    ((geomBranch env deps out fmt renderer).2.count Event.evalGeometry = 0) := by
  unfold geomBranch
  rw [if_pos h]
  rcases hds : depsStep deps fmt out env.writeDepsOk with evts | evts
  · simp [List.count_eq_zero_of_not_mem
      (depsStep_no_eval deps fmt out env.writeDepsOk evts (Or.inl hds))]
  · simp [List.count_append,
      List.count_eq_zero_of_not_mem
        (depsStep_no_eval deps fmt out env.writeDepsOk evts (Or.inr hds)),
      List.count_eq_zero_of_not_mem (exportStepSkipped_no_eval env out fmt renderer)]

/-- The dispatch after a successful parse emits at most one geometry
evaluation. -/
theorem dispatch_eval_count (env : Env) (deps : Option String) (out : String)
    (fmt : OutputFormat) (renderer : Render) :
    ((dispatch env deps out fmt renderer).2.count Event.evalGeometry ≤ 1) := by
  rcases fmt <;>
    first
      | (apply le_trans (le_of_eq rfl) (geomBranch_eval_count env deps out _ renderer))
      | (rcases ho : env.canOpen out with _ | _ <;> simp [dispatch, ho])

/-- C1 amended: full geometry evaluation happens at most once per run; never
for `.csg`/`.ast`/`.term` output; never for `.echo`/`.png` output in a
preview render mode; and it does happen (once load and parse succeed) for
every solid/drawing export and for `.echo`/`.png` output in full-render
mode. -/
theorem c1_amended (env : Env) (deps : Option String) (filename out : String)
    (renderer : Render) :
    ((cmdline env deps filename out renderer).2.count Event.evalGeometry ≤ 1) ∧
    (∀ fmt, selectFormat out = some fmt →
      fmt = OutputFormat.csg ∨ fmt = OutputFormat.ast ∨ fmt = OutputFormat.term →
      (cmdline env deps filename out renderer).2.count Event.evalGeometry = 0) ∧
    (∀ fmt, selectFormat out = some fmt →
      (fmt = OutputFormat.echo ∨ fmt = OutputFormat.png) → renderer ≠ Render.CGAL →
      (cmdline env deps filename out renderer).2.count Event.evalGeometry = 0) ∧
    (∀ fmt, selectFormat out = some fmt →
      (fmt = OutputFormat.stl ∨ fmt = OutputFormat.off ∨ fmt = OutputFormat.amf
        ∨ fmt = OutputFormat.dxf ∨ fmt = OutputFormat.svg
        ∨ ((fmt = OutputFormat.echo ∨ fmt = OutputFormat.png) ∧ renderer = Render.CGAL)) →
      env.inputOk = true → env.parseOk = true →
      Event.evalGeometry ∈ (cmdline env deps filename out renderer).2) := by
  refine ⟨?_, ?_, ?_, ?_⟩
  · rcases hsel : selectFormat out with _ | fmt
    · simp [cmdline, hsel]
    · rcases hin : env.inputOk with _ | _
      · rcases fmt <;> simp [cmdline, hsel, hin, List.count_cons]
      · rcases hp : env.parseOk with _ | _
        · rcases fmt <;> simp [cmdline, hsel, hin, hp, List.count_cons]
        · have h := dispatch_eval_count env deps out fmt renderer
          rcases fmt <;>
            simpa [cmdline, hsel, hin, hp, List.count_append, List.count_cons] using h
  · rintro fmt hsel (rfl | rfl | rfl) <;>
      rcases hin : env.inputOk with _ | _ <;>
      rcases hp : env.parseOk with _ | _ <;>
      rcases ho : env.canOpen out with _ | _ <;>
      simp [cmdline, dispatch, hsel, hin, hp, ho, List.count_cons, List.count_append]
  · rintro fmt hsel hfe hr
    rcases hin : env.inputOk with _ | _
    · rcases hfe with rfl | rfl <;>
        simp [cmdline, hsel, hin, List.count_cons, List.count_append]
    · rcases hp : env.parseOk with _ | _
      · rcases hfe with rfl | rfl <;>
          simp [cmdline, hsel, hin, hp, List.count_cons, List.count_append]
      · have hgb := geomBranch_skip_count env deps out fmt renderer ⟨hfe, hr⟩
        rcases hfe with rfl | rfl <;>
          simp [cmdline, dispatch, hsel, hin, hp, List.count_append, List.count_cons, hgb]
  · rintro fmt hsel hf hin hp
    rcases hf with rfl | rfl | rfl | rfl | rfl | ⟨hfe, rfl⟩ <;>
      try rcases hfe with rfl | rfl
    all_goals
      rcases hge : env.geom with _ | g <;>
        simp [cmdline, dispatch, geomBranch, hsel, hin, hp, hge] <;>
        (try split) <;> simp

theorem c1_witness :
    ((cmdline env0 none "in.scad" "box.stl" Render.OPENCSG).2.count Event.evalGeometry ≤ 1) ∧
    Event.evalGeometry ∈ (cmdline env0 none "in.scad" "box.stl" Render.OPENCSG).2 ∧
    (cmdline env0 none "in.scad" "box.term" Render.OPENCSG).2.count Event.evalGeometry = 0 :=
  ⟨(c1_amended env0 none "in.scad" "box.stl" Render.OPENCSG).1,
   (c1_amended env0 none "in.scad" "box.stl" Render.OPENCSG).2.2.2 OutputFormat.stl (by rfl)
     (Or.inl rfl) rfl rfl,
   (c1_amended env0 none "in.scad" "box.term" Render.OPENCSG).2.1 OutputFormat.term (by rfl)
     (Or.inr (Or.inr rfl))⟩

end OpenSCAD
